import Mathlib

/-!
Shallow embedding of the watch2gether core: the in-memory room store
(server rooms module, v3), the Socket.io event handlers (server/index.js),
the client seek-detection poll (client/src/pages/Room.jsx), and the
torrent streaming gateway routes (server/torrent.js).

Modelling conventions:
* JavaScript `Map` objects become insertion-ordered association lists
  (`JMap`), with `set` overwriting in place and `delete` removing by key.
* Playback times (JS floating-point seconds) become rationals.
* `Date.now()` timestamps (integer milliseconds) become integers.
* JS `null`/`undefined` string fields become `Option String`; a field that
  may or may not be present in an update object becomes a further `Option`.
* Socket.io emits are recorded as `Emission` values whose `Target` captures
  the primitive used in the source: `socket.emit` (sender only),
  `socket.to(room).emit` (everyone in the room except the sender), and
  `io.to(room).emit` (everyone in the room).
-/

set_option autoImplicit false

namespace W2G

/-- JS `Map` with string keys: insertion-ordered association list. -/
def JMap (V : Type) : Type := List (String × V)

instance {V : Type} [DecidableEq V] : DecidableEq (JMap V) :=
  inferInstanceAs (DecidableEq (List (String × V)))

instance {V : Type} [Repr V] : Repr (JMap V) :=
  inferInstanceAs (Repr (List (String × V)))

namespace JMap

/-- The empty map (`new Map()`). -/
def empty {V : Type} : JMap V := []

/-- `Map.prototype.get`: the value stored at a key, if present. -/
def get {V : Type} (m : JMap V) (k : String) : Option V :=
  match m with
  | [] => none
  | (k', v) :: t => if k' = k then some v else get t k

/-- `Map.prototype.set`: overwrite in place if the key exists, else append
(JS `Map` preserves insertion order). -/
def set {V : Type} (m : JMap V) (k : String) (v : V) : JMap V :=
  match m with
  | [] => [(k, v)]
  | (k', v') :: t => if k' = k then (k, v) :: t else (k', v') :: set t k v

/-- `Map.prototype.delete`: remove the entry with the key. -/
def del {V : Type} (m : JMap V) (k : String) : JMap V :=
  match m with
  | [] => []
  | (k', v') :: t => if k' = k then del t k else (k', v') :: del t k

/-- `Map.prototype.size`. -/
def size {V : Type} (m : JMap V) : Nat := m.length

/-- `Map.prototype.has`. -/
def has {V : Type} (m : JMap V) (k : String) : Bool := (get m k).isSome

theorem get_set_self {V : Type} (m : JMap V) (k : String) (v : V) :
    get (set m k v) k = some v := by
  induction m with
  | nil => simp [get, set]
  | cons p t ih =>
    obtain ⟨k', v'⟩ := p
    by_cases h : k' = k
    · simp [get, set, h]
    · simp [get, set, h, ih]

theorem set_of_get_eq {V : Type} (m : JMap V) (k : String) (v : V)
    (h : get m k = some v) : set m k v = m := by
  induction m with
  | nil => simp [get] at h
  | cons p t ih =>
    obtain ⟨k', v'⟩ := p
    by_cases hk : k' = k
    · subst hk
      simp [get] at h
      simp [set, h]
    · simp [get, hk] at h
      simp [set, hk, ih h]

theorem del_of_get_none {V : Type} (m : JMap V) (k : String)
    (h : get m k = none) : del m k = m := by
  induction m with
  | nil => simp [del]
  | cons p t ih =>
    obtain ⟨k', v'⟩ := p
    by_cases hk : k' = k
    · simp [get, hk] at h
    · simp [get, hk] at h
      simp [del, hk, ih h]

end JMap

/-! ### Room store (rooms module, v3: the copy shipped inside torrent.js) -/

/-- A `users` map entry: `{ username }`. -/
structure UserEntry where
  username : String
deriving DecidableEq, Repr

/-- One room of the store (rooms module, v3). -/
structure Room where
  sourceType : String
  videoId : Option String
  url : Option String
  magnetURI : Option String
  currentTime : ℚ
  isPlaying : Bool
  lastUpdate : Int
  users : JMap UserEntry
deriving DecidableEq, Repr

/-- The module-level `rooms` map. -/
def RoomStore : Type := JMap Room

instance : DecidableEq RoomStore := inferInstanceAs (DecidableEq (JMap Room))

/-- `createRoom`: default room state, stamped with the creation time. -/
def createRoom (now : Int) : Room :=
  { sourceType := "youtube"
    videoId := none
    url := none
    magnetURI := none
    currentTime := 0
    isPlaying := false
    lastUpdate := now
    users := JMap.empty }

/-- JS `username || "Guest"`: `undefined`, `null` and `""` are falsy. -/
def jsOrGuest (username : Option String) : String :=
  match username with
  | some s => if s = "" then "Guest" else s
  | none => "Guest"

/-- `joinRoom(roomId, socketId, username)`: create the room if absent, then
`room.users.set(socketId, { username: username || "Guest" })`.
Returns the updated store together with the room object. -/
def joinRoom (rooms : RoomStore) (roomId socketId : String)
    (username : Option String) (now : Int) : RoomStore × Room :=
  let room :=
    match JMap.get rooms roomId with
    | some r => r
    | none => createRoom now
  let room' := { room with users := JMap.set room.users socketId ⟨jsOrGuest username⟩ }
  (JMap.set rooms roomId room', room')

/-- Return value of `leaveRoom`: `{ remaining, username }`. -/
structure LeaveResult where
  remaining : Nat
  username : Option String
deriving DecidableEq, Repr

/-- `leaveRoom(roomId, socketId)`: remove the socket; delete the room when its
users map becomes empty; no-op result when the room is absent. -/
def leaveRoom (rooms : RoomStore) (roomId socketId : String) :
    RoomStore × LeaveResult :=
  match JMap.get rooms roomId with
  | none => (rooms, ⟨0, none⟩)
  | some room =>
    let uname := (JMap.get room.users socketId).map (fun u => u.username)
    let users' := JMap.del room.users socketId
    if JMap.size users' = 0 then
      (JMap.del rooms roomId, ⟨0, uname⟩)
    else
      (JMap.set rooms roomId { room with users := users' }, ⟨JMap.size users', uname⟩)

/-- An `updates` object passed to `updateRoom`: the outer `Option` is JS
field presence (`!== undefined`), the inner `Option String` is nullability. -/
structure RoomUpdates where
  sourceType : Option String
  videoId : Option (Option String)
  url : Option (Option String)
  magnetURI : Option (Option String)
  currentTime : Option ℚ
  isPlaying : Option Bool
deriving DecidableEq, Repr

/-- An update object with no fields set. -/
def RoomUpdates.none : RoomUpdates := ⟨Option.none, Option.none, Option.none, Option.none, Option.none, Option.none⟩

/-- `updateRoom(roomId, updates)`: copy each provided field onto the room and
always stamp `lastUpdate = Date.now()`; `null` result when the room is absent. -/
def updateRoom (rooms : RoomStore) (roomId : String) (u : RoomUpdates) (now : Int) :
    RoomStore × Option Room :=
  match JMap.get rooms roomId with
  | Option.none => (rooms, Option.none)
  | some room =>
    let room' : Room :=
      { sourceType := u.sourceType.getD room.sourceType
        videoId := u.videoId.getD room.videoId
        url := u.url.getD room.url
        magnetURI := u.magnetURI.getD room.magnetURI
        currentTime := u.currentTime.getD room.currentTime
        isPlaying := u.isPlaying.getD room.isPlaying
        lastUpdate := now
        users := room.users }
    (JMap.set rooms roomId room', some room')

/-- Element of the `getUsersList` result: `{ socketId, username }`. -/
structure UserInfo where
  socketId : String
  username : String
deriving DecidableEq, Repr

/-- `getUsersList(roomId)`: the users map as a list of entries. -/
def getUsersList (rooms : RoomStore) (roomId : String) : List UserInfo :=
  match JMap.get rooms roomId with
  | none => []
  | some room => room.users.map (fun p => ⟨p.1, p.2.username⟩)

/-- Snapshot returned by `getRoomState`. -/
structure RoomState where
  sourceType : String
  videoId : Option String
  url : Option String
  magnetURI : Option String
  currentTime : ℚ
  isPlaying : Bool
  userCount : Nat
  users : List UserInfo
deriving DecidableEq, Repr

/-- `getRoomState(roomId)`: live snapshot; while playing, add the elapsed
seconds `(Date.now() - lastUpdate) / 1000` to the stored position. -/
def getRoomState (rooms : RoomStore) (roomId : String) (now : Int) :
    Option RoomState :=
  match JMap.get rooms roomId with
  | none => none
  | some room =>
    let currentTime :=
      if room.isPlaying then
        room.currentTime + ((now - room.lastUpdate : Int) : ℚ) / 1000
      else room.currentTime
    some { sourceType := room.sourceType
           videoId := room.videoId
           url := room.url
           magnetURI := room.magnetURI
           currentTime := currentTime
           isPlaying := room.isPlaying
           userCount := JMap.size room.users
           users := getUsersList rooms roomId }

/-- `getRoomState` as a read on the store: the source body contains no
assignment to any room field, so the store comes back unchanged. -/
def getRoomStateRead (rooms : RoomStore) (roomId : String) (now : Int) :
    Option RoomState × RoomStore :=
  (getRoomState rooms roomId now, rooms)

/-- `getUsersList` as a read on the store. -/
def getUsersListRead (rooms : RoomStore) (roomId : String) :
    List UserInfo × RoomStore :=
  (getUsersList rooms roomId, rooms)

/-- `roomExists(roomId)`. -/
def roomExists (rooms : RoomStore) (roomId : String) : Bool :=
  JMap.has rooms roomId

/-- `roomExists` as a read on the store. -/
def roomExistsRead (rooms : RoomStore) (roomId : String) :
    Bool × RoomStore :=
  (roomExists rooms roomId, rooms)

/-! ### Socket.io handlers (server/index.js) -/

/-- Which emit primitive a handler used. -/
inductive Target where
  /-- `socket.emit(...)`: only the originating socket. -/
  | senderOnly
  /-- `socket.to(roomId).emit(...)`: every socket in the room except the
  originator. -/
  | others
  /-- `io.to(roomId).emit(...)`: every socket in the room. -/
  | all
deriving DecidableEq, Repr

/-- One recorded `emit` call: event name plus routing target. -/
structure Emission where
  event : String
  target : Target
deriving DecidableEq, Repr

/-- The delivery set of an emission, given the sockets currently joined to
the io room and the originating socket. -/
def recipients (t : Target) (members : List String) (sender : String) :
    List String :=
  match t with
  | .senderOnly => [sender]
  | .others => members.filter (fun m => m ≠ sender)
  | .all => members

/-- JS `v || null` on a string field: `undefined`, `null` and `""` give `null`. -/
def jsOrNull (v : Option String) : Option String :=
  match v with
  | some s => if s = "" then none else some s
  | none => none

/-- JS `sourceType || "youtube"`. -/
def jsOrYoutube (v : Option String) : String :=
  match v with
  | some s => if s = "" then "youtube" else s
  | none => "youtube"

/-- Payload of a `video-change` intent. -/
structure VideoChangePayload where
  sourceType : Option String
  videoId : Option String
  url : Option String
  magnetURI : Option String
deriving DecidableEq, Repr

/-- The `video-change` handler: update the room with the coerced source
fields, `currentTime: 0`, `isPlaying: false`, then relay to the others. -/
def videoChangeHandler (rooms : RoomStore) (roomId : String)
    (p : VideoChangePayload) (now : Int) : RoomStore × List Emission :=
  let rooms' := (updateRoom rooms roomId
    { sourceType := some (jsOrYoutube p.sourceType)
      videoId := some (jsOrNull p.videoId)
      url := some (jsOrNull p.url)
      magnetURI := some (jsOrNull p.magnetURI)
      currentTime := some 0
      isPlaying := some false } now).1
  (rooms', [⟨"video-change", .others⟩])

/-- The `play` handler: `updateRoom(roomId, { currentTime, isPlaying: true })`
then relay to the others. -/
def playHandler (rooms : RoomStore) (roomId : String) (currentTime : ℚ)
    (now : Int) : RoomStore × List Emission :=
  let rooms' := (updateRoom rooms roomId
    { RoomUpdates.none with currentTime := some currentTime, isPlaying := some true } now).1
  (rooms', [⟨"play", .others⟩])

/-- The `pause` handler: `updateRoom(roomId, { currentTime, isPlaying: false })`
then relay to the others. -/
def pauseHandler (rooms : RoomStore) (roomId : String) (currentTime : ℚ)
    (now : Int) : RoomStore × List Emission :=
  let rooms' := (updateRoom rooms roomId
    { RoomUpdates.none with currentTime := some currentTime, isPlaying := some false } now).1
  (rooms', [⟨"pause", .others⟩])

/-- The `seek` handler: read the live state, update with the new position and
`isPlaying: room?.isPlaying ?? false`, then relay to the others. -/
def seekHandler (rooms : RoomStore) (roomId : String) (currentTime : ℚ)
    (now : Int) : RoomStore × List Emission :=
  let room := getRoomState rooms roomId now
  let keepPlaying :=
    match room with
    | some st => st.isPlaying
    | none => false
  let rooms' := (updateRoom rooms roomId
    { RoomUpdates.none with currentTime := some currentTime, isPlaying := some keepPlaying } now).1
  (rooms', [⟨"seek", .others⟩])

/-- A chat message as built by the `send-message` handler. -/
structure ChatMessage where
  type : String
  username : String
  text : String
  timestamp : Int
deriving DecidableEq, Repr

/-- The `send-message` handler: build the message and broadcast it to the
whole room, the sender included. -/
def sendMessageHandler (socketUsername : Option String) (text : String)
    (now : Int) : ChatMessage × List Emission :=
  (⟨"chat", jsOrGuest socketUsername, text, now⟩, [⟨"receive-message", .all⟩])

/-- `broadcastUsersList(roomId)`: the filtered payload (placeholder entry
dropped) and the emission, addressed to the whole room. -/
def broadcastUsersList (rooms : RoomStore) (roomId : String) :
    List UserInfo × Emission :=
  ((getUsersList rooms roomId).filter (fun u => u.socketId ≠ "__placeholder__"),
   ⟨"users-list", .all⟩)

/-- The `join-room` handler: drop the placeholder, register the joiner, then
unicast `sync-state` to the joiner, relay `user-joined` to the others and
broadcast `users-list` to everyone. -/
def joinRoomHandler (rooms : RoomStore) (roomId socketId : String)
    (username : Option String) (now : Int) : RoomStore × List Emission :=
  let rooms1 := (leaveRoom rooms roomId "__placeholder__").1
  let rooms2 := (joinRoom rooms1 roomId socketId (some (jsOrGuest username)) now).1
  (rooms2,
   [⟨"sync-state", .senderOnly⟩, ⟨"user-joined", .others⟩, ⟨"users-list", .all⟩])

/-- `POST /api/rooms`: bootstrap the new room by joining the placeholder
participant so the room exists for the GET check. -/
def postRoomsHandler (rooms : RoomStore) (roomId : String) (now : Int) :
    RoomStore :=
  (joinRoom rooms roomId "__placeholder__" (some "__system__") now).1

/-! ### Client seek-detection poll (client/src/pages/Room.jsx, onYTReady) -/

/-- Result of one 500 ms poll tick: the `seek` intents emitted this tick
(each carrying the current position) and the new last-observed position. -/
structure SeekPollResult where
  emitted : List ℚ
  lastTime : ℚ
deriving DecidableEq, Repr

/-- One tick of the seek-detection interval: read the player position `t`,
emit a `seek` intent when `|t - lastTime| > 2` and the remote-action guard
is off, and always store `t` as the last-observed position. -/
def seekPollTick (t lastTime : ℚ) (suppressing : Bool) : SeekPollResult :=
  if |t - lastTime| > 2 ∧ suppressing = false then ⟨[t], t⟩ else ⟨[], t⟩

/-! ### Swarm streaming gateway (server/torrent.js) -/

/-- A JS number that is either an integer or `NaN` (the only values the
range-parsing code can produce). -/
inductive JSNum where
  | nan
  | int (i : Int)
deriving DecidableEq, Repr

namespace JSNum

/-- Subtraction, propagating `NaN`. -/
def sub : JSNum → JSNum → JSNum
  | int a, int b => int (a - b)
  | _, _ => nan

/-- Addition, propagating `NaN`. -/
def add : JSNum → JSNum → JSNum
  | int a, int b => int (a + b)
  | _, _ => nan

/-- JS string interpolation of the number. -/
def toStr : JSNum → String
  | nan => "NaN"
  | int i => toString i

end JSNum

/-- Longest prefix of decimal digits. -/
def digitsTaken : List Char → List Char
  | [] => []
  | c :: t => if c.isDigit then c :: digitsTaken t else []

/-- Value of a digit string. -/
def digitsVal (l : List Char) : Nat :=
  l.foldl (fun a c => a * 10 + (c.toNat - 48)) 0

/-- `parseInt(s, 10)` as used on the pieces of a split Range header: such a
piece never carries a sign or leading whitespace, so JS `parseInt` reduces to
reading the longest decimal-digit prefix, `NaN` when there is none. -/
def jsParseInt (s : String) : JSNum :=
  let ds := digitsTaken s.data
  if ds = [] then .nan else .int (digitsVal ds)

/-- `String.prototype.replace(pat, "")` with a non-global pattern: delete the
first occurrence of `pat`. -/
def removeFirst (pat : List Char) : List Char → List Char
  | [] => []
  | c :: t =>
    if pat.isPrefixOf (c :: t) then (c :: t).drop pat.length
    else c :: removeFirst pat t

/-- `String.prototype.split("-")`. -/
def splitDashAux : List Char → List Char → List (List Char)
  | [], acc => [acc.reverse]
  | c :: t, acc =>
    if c = '-' then acc.reverse :: splitDashAux t []
    else splitDashAux t (c :: acc)

/-- Split a character list on the dash separator. -/
def splitDash (l : List Char) : List (List Char) :=
  splitDashAux l []

/-- The Range parse of the stream route: strip `bytes=`, split on `-`, read
`start = parseInt(parts[0], 10)` and
`end = parts[1] ? parseInt(parts[1], 10) : fileSize - 1`
(a missing or empty second part is falsy). -/
def parseRange (range : String) (fileSize : Nat) : JSNum × JSNum :=
  let parts := splitDash (removeFirst "bytes=".data range.data)
  let start := jsParseInt (String.mk (parts.getD 0 []))
  let fin :=
    match parts.getD 1 [] with
    | [] => JSNum.int ((fileSize : Int) - 1)
    | p => jsParseInt (String.mk p)
  (start, fin)

/-- `file.name.split(".").pop().toLowerCase()`. -/
def extOf (name : String) : String :=
  (((name.splitOn ".").getLastD "").toLower)

/-- `mimeMap[ext] || "video/mp4"`. -/
def mimeOf (ext : String) : String :=
  if ext = "mp4" then "video/mp4"
  else if ext = "webm" then "video/webm"
  else if ext = "mkv" then "video/x-matroska"
  else if ext = "avi" then "video/x-msvideo"
  else if ext = "ogg" then "video/ogg"
  else if ext = "m4v" then "video/mp4"
  else if ext = "mov" then "video/quicktime"
  else if ext = "ts" then "video/mp2t"
  else if ext = "m2ts" then "video/mp2t"
  else "video/mp4"

/-- The selected file of the active torrent: name and byte length. -/
structure FileInfo where
  name : String
  length : Nat
deriving DecidableEq, Repr

/-- What `createReadStream` is asked to produce. -/
inductive StreamBody where
  | whole
  | ranged (s e : JSNum)
deriving DecidableEq, Repr

/-- The head of the response of `GET /api/torrent/stream`. -/
structure StreamResponse where
  status : Nat
  contentRange : Option String
  acceptRanges : Bool
  contentLength : Option JSNum
  contentType : Option String
  body : Option StreamBody
  error : Option String
deriving DecidableEq, Repr

/-- `GET /api/torrent/stream`: 404 without a selected file; with a `Range`
header, parse it and answer 206 with `Content-Range`, `Accept-Ranges` and
`Content-Length = end - start + 1`, streaming that byte span; without one,
answer 200 with the full length. -/
def streamHandler (activeFile : Option FileInfo) (rangeHeader : Option String) :
    StreamResponse :=
  match activeFile with
  | none =>
    { status := 404
      contentRange := none
      acceptRanges := false
      contentLength := none
      contentType := none
      body := none
      error := some "No video file available. Add a torrent first." }
  | some file =>
    let fileSize := file.length
    let contentType := mimeOf (extOf file.name)
    match rangeHeader with
    | some range =>
      let se := parseRange range fileSize
      let chunkSize := JSNum.add (JSNum.sub se.2 se.1) (JSNum.int 1)
      { status := 206
        contentRange := some ("bytes " ++ se.1.toStr ++ "-" ++ se.2.toStr ++
          "/" ++ toString fileSize)
        acceptRanges := true
        contentLength := some chunkSize
        contentType := some contentType
        body := some (.ranged se.1 se.2)
        error := none }
    | none =>
      { status := 200
        contentRange := none
        acceptRanges := true
        contentLength := some (.int (fileSize : Int))
        contentType := some contentType
        body := some .whole
        error := none }

/-- The resolved torrent, as far as the status route reads it. -/
structure TorrentHandle where
  progress : ℚ
deriving DecidableEq, Repr

/-- The module-level mutable gateway slot of torrent.js. -/
structure GatewayState where
  activeTorrent : Option TorrentHandle
  activeFile : Option FileInfo
  activeMagnet : Option String
  addError : Option String
deriving DecidableEq, Repr

/-- The `status` string computed by `GET /api/torrent/status`. -/
def statusOf (st : GatewayState) : String :=
  match st.addError with
  | some _ => "error"
  | none =>
    match st.activeTorrent with
    | none => if st.activeMagnet.isSome then "connecting" else "idle"
    | some t =>
      match st.activeFile with
      | some _ => if t.progress ≥ 1 / 100 then "streaming" else "downloading"
      | none => "no-video"

/-- Observable outcome of `POST /api/torrent/add`: the HTTP status, the
`status` field of the JSON body, the gateway slot after the synchronous part
of the handler, whether `client.add` was initiated, and whether a previous
torrent was removed from the client. -/
structure AddResult where
  httpStatus : Nat
  responseStatus : Option String
  state : GatewayState
  addInitiated : Bool
  removedPrev : Bool
deriving DecidableEq, Repr

/-- `POST /api/torrent/add`: reject a falsy `magnetURI`; short-circuit with
`already-active` when the same magnet is active AND a torrent object exists;
otherwise remove any existing torrent (clearing the slot), record the new
magnet with a cleared error, initiate `client.add`, and answer `adding`. -/
def addHandler (st : GatewayState) (magnetURI : Option String) : AddResult :=
  match magnetURI with
  | none => ⟨400, none, st, false, false⟩
  | some m =>
    if m = "" then ⟨400, none, st, false, false⟩
    else if st.activeMagnet = some m ∧ st.activeTorrent.isSome then
      ⟨200, some "already-active", st, false, false⟩
    else
      let removed := st.activeTorrent.isSome
      let st1 :=
        if removed then
          ({ activeTorrent := none, activeFile := none,
             activeMagnet := none, addError := none } : GatewayState)
        else st
      let st2 := { st1 with activeMagnet := some m, addError := none }
      ⟨200, some "adding", st2, true, removed⟩

/-! ### Concrete fixtures used by the witnesses -/

/-- A room playing a YouTube video at stored position 10.5 s (21/2),
last updated at 1000 ms, with one participant. -/
def roomPlaying : Room :=
  { sourceType := "youtube"
    videoId := some "x"
    url := none
    magnetURI := none
    currentTime := ⟨21, 2, by decide, by decide⟩
    isPlaying := true
    lastUpdate := 1000
    users := [("a", ⟨"A"⟩)] }

/-- A room playing a YouTube video at 100 s, with one participant. -/
def roomYT : Room :=
  { sourceType := "youtube"
    videoId := some "abc"
    url := none
    magnetURI := none
    currentTime := ⟨100, 1, by decide, by decide⟩
    isPlaying := true
    lastUpdate := 500
    users := [("a", ⟨"A"⟩)] }

/-- A room on a direct URL source at 77 s with a single participant. -/
def roomSolo : Room :=
  { sourceType := "url"
    videoId := none
    url := some "http://v.example/a.mp4"
    magnetURI := none
    currentTime := ⟨77, 1, by decide, by decide⟩
    isPlaying := true
    lastUpdate := 900
    users := [("s", ⟨"Ann"⟩)] }

/-- The default room created at 4000 ms holding only the joiner `s2`. -/
def roomFresh : Room :=
  { sourceType := "youtube"
    videoId := none
    url := none
    magnetURI := none
    currentTime := 0
    isPlaying := false
    lastUpdate := 4000
    users := [("s2", ⟨"Bob"⟩)] }

/-- A room as bootstrapped by `POST /api/rooms` at 7000 ms: default state
with only the placeholder participant. -/
def roomBoot : Room :=
  { sourceType := "youtube"
    videoId := none
    url := none
    magnetURI := none
    currentTime := 0
    isPlaying := false
    lastUpdate := 7000
    users := [("__placeholder__", ⟨"__system__"⟩)] }

/-- A selected torrent video file of 10000 bytes. -/
def fileSample : FileInfo := ⟨"movie.mp4", 10000⟩

/-! ### Helper lemmas -/

theorem JMap.get_del_self {V : Type} (m : JMap V) (k : String) :
    JMap.get (JMap.del m k) k = none := by
  induction m with
  | nil => simp [JMap.get, JMap.del]
  | cons p t ih =>
    obtain ⟨k', v'⟩ := p
    by_cases h : k' = k
    · simp [JMap.del, h, ih]
    · simp [JMap.del, JMap.get, h, ih]

theorem length_filter_ne {l : List String} {s : String}
    (hnd : l.Nodup) (hm : s ∈ l) :
    (l.filter (fun m => m ≠ s)).length = l.length - 1 := by
  induction l with
  | nil => cases hm
  | cons a t ih =>
    rw [List.nodup_cons] at hnd
    rcases List.mem_cons.mp hm with h | h
    · subst h
      have hfil : t.filter (fun m => m ≠ s) = t := by
        apply List.filter_eq_self.mpr
        intro b hb
        simp only [ne_eq, decide_eq_true_eq]
        intro hbs
        exact hnd.1 (hbs ▸ hb)
      rw [List.filter_cons_of_neg (by simp), hfil]
      simp
    · have has : a ≠ s := fun he => hnd.1 (he ▸ h)
      have ht1 : 1 ≤ t.length := List.length_pos.mpr (List.ne_nil_of_mem h)
      rw [List.filter_cons_of_pos (by simp [has])]
      simp only [List.length_cons, ih hnd.2 h]
      omega

/-! ### Claims -/

/-- C1: for every room and playback/source event (play, pause, seek,
video-change) from participant `s`, the server relays the event to exactly
the other participants (`socket.to(room)`: the N−1 sockets other than `s`),
while chat (`receive-message`) and `users-list` go to all N sockets of the
room, `s` included (`io.to(room)`). -/
theorem broadcast_routing_excludes_sender
    (members : List String) (s : String) (N : Nat)
    (hnd : members.Nodup) (hs : s ∈ members) (hN : members.length = N) :
    (∀ rooms roomId ct now em,
       em ∈ (playHandler rooms roomId ct now).2 → em.target = Target.others) ∧
    (∀ rooms roomId ct now em,
       em ∈ (pauseHandler rooms roomId ct now).2 → em.target = Target.others) ∧
    (∀ rooms roomId ct now em,
       em ∈ (seekHandler rooms roomId ct now).2 → em.target = Target.others) ∧
    (∀ rooms roomId p now em,
       em ∈ (videoChangeHandler rooms roomId p now).2 → em.target = Target.others) ∧
    (∀ uname txt now em,
       em ∈ (sendMessageHandler uname txt now).2 → em.target = Target.all) ∧
    (∀ rooms roomId, (broadcastUsersList rooms roomId).2.target = Target.all) ∧
    (recipients Target.others members s).length = N - 1 ∧
    recipients Target.all members s = members ∧
    s ∉ recipients Target.others members s ∧
    (∀ m, m ∈ members → m ≠ s → m ∈ recipients Target.others members s) := by
  refine ⟨?_, ?_, ?_, ?_, ?_, ?_, ?_, ?_, ?_, ?_⟩
  · intro rooms roomId ct now em hem
    simp [playHandler] at hem
    simp [hem]
  · intro rooms roomId ct now em hem
    simp [pauseHandler] at hem
    simp [hem]
  · intro rooms roomId ct now em hem
    simp [seekHandler] at hem
    simp [hem]
  · intro rooms roomId p now em hem
    simp [videoChangeHandler] at hem
    simp [hem]
  · intro uname txt now em hem
    simp [sendMessageHandler] at hem
    simp [hem]
  · intro rooms roomId
    simp [broadcastUsersList]
  · rw [← hN]
    exact length_filter_ne hnd hs
  · rfl
  · simp [recipients]
  · intro m hm hne
    simp [recipients, hne, hm]

/-- Witness for C1 at the room `["a", "b", "c"]` with originator `"a"`. -/
theorem broadcast_routing_excludes_sender_witness :
    (["a", "b", "c"] : List String).Nodup ∧ ("a" : String) ∈ ["a", "b", "c"] ∧
    (recipients Target.others ["a", "b", "c"] "a").length = 2 ∧
    recipients Target.all ["a", "b", "c"] "a" = ["a", "b", "c"] :=
  ⟨by decide, by decide,
   (broadcast_routing_excludes_sender ["a", "b", "c"] "a" 3
     (by decide) (by decide) rfl).2.2.2.2.2.2.1,
   (broadcast_routing_excludes_sender ["a", "b", "c"] "a" 3
     (by decide) (by decide) rfl).2.2.2.2.2.2.2.1⟩

/-- C2: the live state read of an existing room reports
`currentTime = stored + (now - lastUpdate) / 1000` while playing and exactly
the stored `currentTime` (whatever `now` is) while paused; the read leaves
the store untouched. -/
theorem getRoomState_drift_compensation
    (rooms : RoomStore) (roomId : String) (room : Room) (now : Int)
    (h : JMap.get rooms roomId = some room) :
    (∃ st, getRoomState rooms roomId now = some st ∧
      (room.isPlaying = true →
        st.currentTime = room.currentTime + ((now - room.lastUpdate : Int) : ℚ) / 1000) ∧
      (room.isPlaying = false → st.currentTime = room.currentTime) ∧
      st.isPlaying = room.isPlaying ∧
      st.sourceType = room.sourceType) ∧
    (getRoomStateRead rooms roomId now).2 = rooms ∧
    (getUsersListRead rooms roomId).2 = rooms ∧
    (roomExistsRead rooms roomId).2 = rooms := by
  refine ⟨⟨_, by rw [getRoomState, h], ?_, ?_, rfl, rfl⟩, rfl, rfl, rfl⟩
  · intro hp
    simp [hp]
  · intro hp
    simp [hp]

/-- Witness for C2: a room at stored position 21/2 s (10.5 s), playing,
last updated at 1000 ms, read at 6000 ms. -/
theorem getRoomState_drift_compensation_witness :
    JMap.get [("r", roomPlaying)] "r" = some roomPlaying ∧
    (∃ st, getRoomState [("r", roomPlaying)] "r" 6000 = some st ∧
      st.currentTime =
        roomPlaying.currentTime + ((6000 - roomPlaying.lastUpdate : Int) : ℚ) / 1000) :=
  ⟨by decide, by
    obtain ⟨st, h1, h2, -, -, -⟩ :=
      (getRoomState_drift_compensation [("r", roomPlaying)] "r" roomPlaying 6000 (by decide)).1
    exact ⟨st, h1, h2 rfl⟩⟩

/-- C3: a `video-change` on an existing room atomically resets playback: the
single post-state room holds the coerced new source fields together with
`currentTime = 0` and `isPlaying = false`, and every snapshot taken after the
handler shows the new source with time 0 (the handler is one store update, so
no snapshot can pair the old source with the reset time or vice versa). -/
theorem videoChange_atomic_reset
    (rooms : RoomStore) (roomId : String) (room : Room)
    (p : VideoChangePayload) (now : Int)
    (h : JMap.get rooms roomId = some room) :
    ∃ room', JMap.get (videoChangeHandler rooms roomId p now).1 roomId = some room' ∧
      room'.currentTime = 0 ∧ room'.isPlaying = false ∧
      room'.sourceType = jsOrYoutube p.sourceType ∧
      room'.videoId = jsOrNull p.videoId ∧
      room'.url = jsOrNull p.url ∧
      room'.magnetURI = jsOrNull p.magnetURI ∧
      room'.users = room.users ∧
      (∀ now', ∃ st,
        getRoomState (videoChangeHandler rooms roomId p now).1 roomId now' = some st ∧
        st.currentTime = 0 ∧ st.sourceType = jsOrYoutube p.sourceType ∧
        st.isPlaying = false) := by
  have hstore : (videoChangeHandler rooms roomId p now).1 =
      JMap.set rooms roomId
        { sourceType := jsOrYoutube p.sourceType
          videoId := jsOrNull p.videoId
          url := jsOrNull p.url
          magnetURI := jsOrNull p.magnetURI
          currentTime := 0
          isPlaying := false
          lastUpdate := now
          users := room.users } := by
    simp [videoChangeHandler, updateRoom, h]
  refine ⟨{ sourceType := jsOrYoutube p.sourceType
            videoId := jsOrNull p.videoId
            url := jsOrNull p.url
            magnetURI := jsOrNull p.magnetURI
            currentTime := 0
            isPlaying := false
            lastUpdate := now
            users := room.users },
    by rw [hstore]; exact JMap.get_set_self _ _ _,
    rfl, rfl, rfl, rfl, rfl, rfl, rfl, ?_⟩
  intro now'
  refine ⟨_, by rw [getRoomState, hstore, JMap.get_set_self], ?_, rfl, rfl⟩
  simp

/-- Witness for C3: a room playing a YouTube video switched to a direct URL. -/
theorem videoChange_atomic_reset_witness :
    JMap.get [("r", roomYT)] "r" = some roomYT ∧
    (∃ room', JMap.get (videoChangeHandler [("r", roomYT)] "r"
        ⟨some "url", none, some "http://v.example/a.mp4", none⟩ 2000).1 "r" = some room' ∧
      room'.currentTime = 0 ∧ room'.isPlaying = false ∧
      room'.sourceType = jsOrYoutube (some "url") ∧
      room'.videoId = jsOrNull none ∧
      room'.url = jsOrNull (some "http://v.example/a.mp4") ∧
      room'.magnetURI = jsOrNull none ∧
      room'.users = roomYT.users ∧
      (∀ now', ∃ st, getRoomState (videoChangeHandler [("r", roomYT)] "r"
          ⟨some "url", none, some "http://v.example/a.mp4", none⟩ 2000).1 "r" now' = some st ∧
        st.currentTime = 0 ∧ st.sourceType = jsOrYoutube (some "url") ∧
        st.isPlaying = false)) :=
  ⟨by decide,
   videoChange_atomic_reset [("r", roomYT)] "r" roomYT
     ⟨some "url", none, some "http://v.example/a.mp4", none⟩ 2000 (by decide)⟩

/-- C4: removing the only participant deletes the room; the next join with
the same id creates a fresh room in default state (source `youtube`, all
media fields null, time 0, paused) holding only the joiner; a leave naming an
absent room, or an absent participant of a non-empty room, changes nothing. -/
theorem leave_deletes_rejoin_fresh :
    (∀ rooms roomId sid u room, JMap.get rooms roomId = some room →
       room.users = [(sid, u)] →
       (leaveRoom rooms roomId sid).2 = ⟨0, some u.username⟩ ∧
       JMap.get (leaveRoom rooms roomId sid).1 roomId = none) ∧
    (∀ rooms roomId sid2 name now, JMap.get rooms roomId = none → name ≠ "" →
       JMap.get (joinRoom rooms roomId sid2 (some name) now).1 roomId =
         some { sourceType := "youtube", videoId := none, url := none,
                magnetURI := none, currentTime := 0, isPlaying := false,
                lastUpdate := now, users := [(sid2, ⟨name⟩)] }) ∧
    (∀ rooms roomId sid, JMap.get rooms roomId = none →
       leaveRoom rooms roomId sid = (rooms, ⟨0, none⟩)) ∧
    (∀ rooms roomId sid room, JMap.get rooms roomId = some room →
       JMap.get room.users sid = none → JMap.size room.users ≠ 0 →
       leaveRoom rooms roomId sid = (rooms, ⟨JMap.size room.users, none⟩)) := by
  refine ⟨?_, ?_, ?_, ?_⟩
  · intro rooms roomId sid u room h hu
    have hstep : leaveRoom rooms roomId sid =
        (JMap.del rooms roomId, ⟨0, some u.username⟩) := by
      rw [leaveRoom, h]
      simp [hu, JMap.get, JMap.del, JMap.size]
    rw [hstep]
    exact ⟨rfl, JMap.get_del_self rooms roomId⟩
  · intro rooms roomId sid2 name now h hname
    rw [joinRoom, h]
    simp only
    rw [JMap.get_set_self]
    simp [createRoom, JMap.empty, JMap.set, jsOrGuest, hname]
  · intro rooms roomId sid h
    rw [leaveRoom, h]
  · intro rooms roomId sid room h hu hsz
    rw [leaveRoom, h]
    simp only [hu, JMap.del_of_get_none room.users sid hu, Option.map_none]
    rw [if_neg hsz]
    exact Prod.ext (JMap.set_of_get_eq rooms roomId room h) rfl

/-- Witness for C4: a one-participant room that is left and re-created, plus
a silent no-op leave of an absent room. -/
theorem leave_deletes_rejoin_fresh_witness :
    JMap.get [("r", roomSolo)] "r" = some roomSolo ∧
    ((leaveRoom [("r", roomSolo)] "r" "s").2 = ⟨0, some "Ann"⟩ ∧
     JMap.get (leaveRoom [("r", roomSolo)] "r" "s").1 "r" = none) ∧
    JMap.get (joinRoom [] "r" "s2" (some "Bob") 4000).1 "r" = some roomFresh ∧
    leaveRoom [] "ghost" "s" = ([], ⟨0, none⟩) :=
  ⟨by decide,
   leave_deletes_rejoin_fresh.1 [("r", roomSolo)] "r" "s" ⟨"Ann"⟩ roomSolo (by decide) rfl,
   leave_deletes_rejoin_fresh.2.1 [] "r" "s2" "Bob" 4000 rfl (by decide),
   leave_deletes_rejoin_fresh.2.2.1 [] "ghost" "s" rfl⟩

/-- C5: for a selected file of length `L`, a request whose Range header
parses to `start-end` with `0 ≤ start ≤ end ≤ L-1` gets status 206,
`Content-Range: bytes start-end/L`, `Content-Length = end-start+1` and
`Accept-Ranges: bytes`; a missing or empty second part defaults the end to
`L-1`; a request with no Range header gets status 200 with the full length. -/
theorem stream_range_response
    (file : FileInfo) (hdr : String) (a b : Int)
    (hparse : parseRange hdr file.length = (JSNum.int a, JSNum.int b))
    (h0 : 0 ≤ a) (hab : a ≤ b) (hb : b ≤ (file.length : Int) - 1) :
    streamHandler (some file) (some hdr) =
      { status := 206
        contentRange := some ("bytes " ++ toString a ++ "-" ++ toString b ++
          "/" ++ toString file.length)
        acceptRanges := true
        contentLength := some (JSNum.int (b - a + 1))
        contentType := some (mimeOf (extOf file.name))
        body := some (StreamBody.ranged (JSNum.int a) (JSNum.int b))
        error := none } ∧
    streamHandler (some file) none =
      { status := 200
        contentRange := none
        acceptRanges := true
        contentLength := some (JSNum.int (file.length : Int))
        contentType := some (mimeOf (extOf file.name))
        body := some StreamBody.whole
        error := none } ∧
    (∀ hdr2 : String,
      (splitDash (removeFirst "bytes=".data hdr2.data)).getD 1 [] = [] →
      (parseRange hdr2 file.length).2 = JSNum.int ((file.length : Int) - 1)) := by
  refine ⟨?_, rfl, ?_⟩
  · simp only [streamHandler, hparse]
    rw [show JSNum.add (JSNum.sub (JSNum.int b) (JSNum.int a)) (JSNum.int 1) =
      JSNum.int (b - a + 1) from rfl]
    rfl
  · intro hdr2 h2
    rw [parseRange]
    simp only [h2]

/-- Witness for C5: a 10000-byte file, `Range: bytes=1000-1999` and the
open-ended `Range: bytes=1000-`. -/
theorem stream_range_response_witness :
    parseRange "bytes=1000-1999" fileSample.length = (JSNum.int 1000, JSNum.int 1999) ∧
    (0 : Int) ≤ 1000 ∧ (1000 : Int) ≤ 1999 ∧ (1999 : Int) ≤ (fileSample.length : Int) - 1 ∧
    streamHandler (some fileSample) (some "bytes=1000-1999") =
      { status := 206
        contentRange := some ("bytes " ++ toString (1000 : Int) ++ "-" ++
          toString (1999 : Int) ++ "/" ++ toString fileSample.length)
        acceptRanges := true
        contentLength := some (JSNum.int 1000)
        contentType := some (mimeOf (extOf fileSample.name))
        body := some (StreamBody.ranged (JSNum.int 1000) (JSNum.int 1999))
        error := none } ∧
    streamHandler (some fileSample) none =
      { status := 200
        contentRange := none
        acceptRanges := true
        contentLength := some (JSNum.int (fileSample.length : Int))
        contentType := some (mimeOf (extOf fileSample.name))
        body := some StreamBody.whole
        error := none } ∧
    (parseRange "bytes=1000-" fileSample.length).2 = JSNum.int ((fileSample.length : Int) - 1) :=
  ⟨by decide, by decide, by decide, by decide,
   (stream_range_response fileSample "bytes=1000-1999" 1000 1999
      (by decide) (by decide) (by decide) (by decide)).1,
   (stream_range_response fileSample "bytes=1000-1999" 1000 1999
      (by decide) (by decide) (by decide) (by decide)).2.1,
   (stream_range_response fileSample "bytes=1000-1999" 1000 1999
      (by decide) (by decide) (by decide) (by decide)).2.2 "bytes=1000-" (by decide)⟩

/-- C6 counterexample: the claim says an out-of-bounds range (here
`bytes=20000-29999` against a 10000-byte file, and `bytes=500-100` with the
end before the start) is rejected as range-not-satisfiable, but the handler
performs no validation: it answers 206 with a ranged body and no error. -/
theorem stream_out_of_range_not_rejected_cex :
    (streamHandler (some fileSample) (some "bytes=20000-29999")).status = 206 ∧
    (streamHandler (some fileSample) (some "bytes=20000-29999")).status ≠ 416 ∧
    (streamHandler (some fileSample) (some "bytes=20000-29999")).error = none ∧
    (streamHandler (some fileSample) (some "bytes=20000-29999")).body =
      some (StreamBody.ranged (JSNum.int 20000) (JSNum.int 29999)) ∧
    (streamHandler (some fileSample) (some "bytes=500-100")).status = 206 ∧
    (streamHandler (some fileSample) (some "bytes=500-100")).contentLength =
      some (JSNum.int (-399)) := by
  decide

/-- C6 as amended: the stream route performs no range validation at all —
any request whose Range header parses to integers `start-end`, even one
entirely outside `[0, total-1]` or with the end before the start, is
answered 206 with a ranged body, `Content-Length = end-start+1`, and no
error response; failures can surface only later on the read stream. -/
theorem stream_no_range_validation
    (file : FileInfo) (hdr : String) (a b : Int)
    (hparse : parseRange hdr file.length = (JSNum.int a, JSNum.int b))
    (hout : b < a ∨ (file.length : Int) - 1 < a ∨ (file.length : Int) - 1 < b) :
    (streamHandler (some file) (some hdr)).status = 206 ∧
    (streamHandler (some file) (some hdr)).error = none ∧
    (streamHandler (some file) (some hdr)).body =
      some (StreamBody.ranged (JSNum.int a) (JSNum.int b)) ∧
    (streamHandler (some file) (some hdr)).contentLength =
      some (JSNum.int (b - a + 1)) := by
  simp [streamHandler, hparse, JSNum.sub, JSNum.add]

/-- Witness for the amended C6 at `bytes=20000-29999` on a 10000-byte file. -/
theorem stream_no_range_validation_witness :
    parseRange "bytes=20000-29999" fileSample.length =
      (JSNum.int 20000, JSNum.int 29999) ∧
    ((29999 : Int) < 20000 ∨ (fileSample.length : Int) - 1 < 20000 ∨
      (fileSample.length : Int) - 1 < 29999) ∧
    (streamHandler (some fileSample) (some "bytes=20000-29999")).status = 206 ∧
    (streamHandler (some fileSample) (some "bytes=20000-29999")).error = none :=
  ⟨by decide, by decide,
   (stream_no_range_validation fileSample "bytes=20000-29999" 20000 29999
      (by decide) (by decide)).1,
   (stream_no_range_validation fileSample "bytes=20000-29999" 20000 29999
      (by decide) (by decide)).2.1⟩

/-- C7 counterexample: the claim says every users-map mutation refreshes
`lastUpdate`, but joining an existing room at time 5000 mutates `users`
while leaving `lastUpdate` at its old value 1000. -/
theorem join_not_refreshing_lastUpdate_cex :
    (JMap.get (joinRoom [("r", roomPlaying)] "r" "b" (some "B") 5000).1 "r").map
        (fun r => r.lastUpdate) = some 1000 ∧
    (JMap.get (joinRoom [("r", roomPlaying)] "r" "b" (some "B") 5000).1 "r").map
        (fun r => r.users) = some [("a", ⟨"A"⟩), ("b", ⟨"B"⟩)] ∧
    roomPlaying.users ≠ [("a", ⟨"A"⟩), ("b", ⟨"B"⟩)] ∧
    (1000 : Int) ≠ 5000 := by
  decide

/-- C7 as amended: `updateRoom` (every playback/source mutation) always
stamps `lastUpdate = now`, and no read (`getRoomState`, `getUsersList`,
`roomExists`) modifies the store; but membership changes do not refresh the
stamp — `joinRoom` on an existing room and `leaveRoom` leave the surviving
room's `lastUpdate` unchanged. -/
theorem lastUpdate_refresh_policy :
    (∀ rooms roomId u now room, JMap.get rooms roomId = some room →
       ∃ room', JMap.get (updateRoom rooms roomId u now).1 roomId = some room' ∧
         room'.lastUpdate = now) ∧
    (∀ rooms roomId now, (getRoomStateRead rooms roomId now).2 = rooms) ∧
    (∀ rooms roomId, (getUsersListRead rooms roomId).2 = rooms) ∧
    (∀ rooms roomId, (roomExistsRead rooms roomId).2 = rooms) ∧
    (∀ rooms roomId sid name now room, JMap.get rooms roomId = some room →
       ∃ room', JMap.get (joinRoom rooms roomId sid name now).1 roomId = some room' ∧
         room'.lastUpdate = room.lastUpdate) ∧
    (∀ rooms roomId sid room room', JMap.get rooms roomId = some room →
       JMap.get (leaveRoom rooms roomId sid).1 roomId = some room' →
       room'.lastUpdate = room.lastUpdate) := by
  refine ⟨?_, fun _ _ _ => rfl, fun _ _ => rfl, fun _ _ => rfl, ?_, ?_⟩
  · intro rooms roomId u now room h
    rw [updateRoom, h]
    simp only
    exact ⟨_, JMap.get_set_self _ _ _, rfl⟩
  · intro rooms roomId sid name now room h
    rw [joinRoom, h]
    simp only
    exact ⟨_, JMap.get_set_self _ _ _, rfl⟩
  · intro rooms roomId sid room room' h hget
    by_cases hsz : JMap.size (JMap.del room.users sid) = 0
    · have hstep : (leaveRoom rooms roomId sid).1 = JMap.del rooms roomId := by
        rw [leaveRoom, h]
        simp [hsz]
      rw [hstep, JMap.get_del_self] at hget
      cases hget
    · have hstep : (leaveRoom rooms roomId sid).1 =
          JMap.set rooms roomId { room with users := JMap.del room.users sid } := by
        rw [leaveRoom, h]
        simp [hsz]
      rw [hstep, JMap.get_set_self] at hget
      rw [Option.some.injEq] at hget
      rw [← hget]

/-- Witness for the amended C7: an update stamps 5000; a join and a leave on
a two-person room leave the stamp at 1000. -/
theorem lastUpdate_refresh_policy_witness :
    JMap.get [("r", roomPlaying)] "r" = some roomPlaying ∧
    (∃ room', JMap.get (updateRoom [("r", roomPlaying)] "r"
        ⟨Option.none, Option.none, Option.none, Option.none, some 0, some false⟩ 5000).1 "r" =
        some room' ∧ room'.lastUpdate = 5000) ∧
    (∃ room', JMap.get (joinRoom [("r", roomPlaying)] "r" "b" (some "B") 5000).1 "r" =
        some room' ∧ room'.lastUpdate = roomPlaying.lastUpdate) :=
  ⟨by decide,
   lastUpdate_refresh_policy.1 [("r", roomPlaying)] "r"
     ⟨Option.none, Option.none, Option.none, Option.none, some 0, some false⟩ 5000
     roomPlaying (by decide),
   lastUpdate_refresh_policy.2.2.2.2.1 [("r", roomPlaying)] "r" "b" (some "B") 5000
     roomPlaying (by decide)⟩

/-- C8: on a poll tick, a position jump of more than 2 s with the
remote-action guard off emits exactly one seek intent carrying the current
position; a jump of at most 2 s emits none; and the last-observed position
is updated to the current position on every tick regardless of the guard. -/
theorem seekPollTick_threshold (t lastTime : ℚ) (sup : Bool) :
    (2 < |t - lastTime| → seekPollTick t lastTime false = ⟨[t], t⟩) ∧
    (|t - lastTime| ≤ 2 → seekPollTick t lastTime sup = ⟨[], t⟩) ∧
    (seekPollTick t lastTime sup).lastTime = t := by
  refine ⟨?_, ?_, ?_⟩
  · intro h
    rw [seekPollTick, if_pos ⟨h, rfl⟩]
  · intro h
    rw [seekPollTick, if_neg]
    rintro ⟨h2, -⟩
    exact absurd h (not_le.mpr h2)
  · rw [seekPollTick]
    split <;> rfl

/-- Witness for C8: a jump from 20 s to 50 s emits one seek at 50; a jump
from 20 s to 21.5 s (43/2) emits none. -/
theorem seekPollTick_threshold_witness :
    2 < |(50 : ℚ) - 20| ∧ seekPollTick 50 20 false = ⟨[50], 50⟩ ∧
    |(43 / 2 : ℚ) - 20| ≤ 2 ∧ seekPollTick (43 / 2) 20 false = ⟨[], 43 / 2⟩ :=
  ⟨by norm_num, (seekPollTick_threshold 50 20 false).1 (by norm_num),
   by rw [abs_le]; constructor <;> norm_num,
   (seekPollTick_threshold (43 / 2) 20 false).2.1 (by rw [abs_le]; constructor <;> norm_num)⟩

/-- C9 counterexample: with the gateway still connecting (magnet recorded,
no torrent object yet) a second `startTransfer` with the same locator is
non-idle per the claim and should return the existing status without a
restart, but the handler answers `adding` and initiates a fresh
`client.add`. -/
theorem startTransfer_connecting_same_locator_cex :
    statusOf ⟨none, none, some "magnet:?xt=urn:btih:aaaa", none⟩ = "connecting" ∧
    statusOf ⟨none, none, some "magnet:?xt=urn:btih:aaaa", none⟩ ≠ "idle" ∧
    (addHandler ⟨none, none, some "magnet:?xt=urn:btih:aaaa", none⟩
        (some "magnet:?xt=urn:btih:aaaa")).responseStatus = some "adding" ∧
    (addHandler ⟨none, none, some "magnet:?xt=urn:btih:aaaa", none⟩
        (some "magnet:?xt=urn:btih:aaaa")).addInitiated = true ∧
    (some "adding" : Option String) ≠ some "already-active" := by
  decide

/-- C9 as amended: the same-locator short-circuit fires only once the
torrent object exists (metadata resolved): then the call returns
`already-active` with the slot untouched and no new add. In every other
case — a different locator, or the same locator still connecting — the
handler removes any resolved torrent (clearing the slot), records the new
magnet with the error cleared, initiates `client.add`, answers `adding`,
and the post-state status is `connecting`. -/
theorem addHandler_replacement (st : GatewayState) (m : String) (hm : m ≠ "") :
    (st.activeMagnet = some m → st.activeTorrent.isSome = true →
       addHandler st (some m) = ⟨200, some "already-active", st, false, false⟩) ∧
    (¬(st.activeMagnet = some m ∧ st.activeTorrent.isSome = true) →
       (addHandler st (some m)).responseStatus = some "adding" ∧
       (addHandler st (some m)).addInitiated = true ∧
       (addHandler st (some m)).removedPrev = st.activeTorrent.isSome ∧
       (addHandler st (some m)).state.activeMagnet = some m ∧
       (addHandler st (some m)).state.addError = none ∧
       (addHandler st (some m)).state.activeTorrent = none ∧
       statusOf (addHandler st (some m)).state = "connecting") := by
  constructor
  · intro h1 h2
    rw [addHandler]
    simp only
    rw [if_neg hm, if_pos ⟨h1, h2⟩]
  · intro hne
    rw [addHandler]
    simp only
    rw [if_neg hm, if_neg hne]
    by_cases hrem : st.activeTorrent.isSome = true
    · simp [hrem, statusOf]
    · have hnone : st.activeTorrent = none := by
        cases hao : st.activeTorrent
        · rfl
        · rw [hao] at hrem
          exact absurd rfl hrem
      simp [hrem, hnone, statusOf]

/-- Witness for the amended C9: the short-circuit on a resolved transfer,
and the restart on a still-connecting transfer with the same magnet. -/
theorem addHandler_replacement_witness :
    ("magnet:?xt=urn:btih:aaaa" : String) ≠ "" ∧
    addHandler ⟨some ⟨1⟩, some fileSample, some "magnet:?xt=urn:btih:aaaa", none⟩
        (some "magnet:?xt=urn:btih:aaaa") =
      ⟨200, some "already-active",
       ⟨some ⟨1⟩, some fileSample, some "magnet:?xt=urn:btih:aaaa", none⟩,
       false, false⟩ ∧
    ¬((⟨none, none, some "magnet:?xt=urn:btih:aaaa", none⟩ :
        GatewayState).activeMagnet = some "magnet:?xt=urn:btih:aaaa" ∧
      (⟨none, none, some "magnet:?xt=urn:btih:aaaa", none⟩ :
        GatewayState).activeTorrent.isSome = true) ∧
    (addHandler ⟨none, none, some "magnet:?xt=urn:btih:aaaa", none⟩
        (some "magnet:?xt=urn:btih:aaaa")).responseStatus = some "adding" ∧
    statusOf (addHandler ⟨none, none, some "magnet:?xt=urn:btih:aaaa", none⟩
        (some "magnet:?xt=urn:btih:aaaa")).state = "connecting" :=
  ⟨by decide,
   (addHandler_replacement
      ⟨some ⟨1⟩, some fileSample, some "magnet:?xt=urn:btih:aaaa", none⟩
      "magnet:?xt=urn:btih:aaaa" (by decide)).1 rfl rfl,
   by decide,
   ((addHandler_replacement ⟨none, none, some "magnet:?xt=urn:btih:aaaa", none⟩
      "magnet:?xt=urn:btih:aaaa" (by decide)).2 (by decide)).1,
   ((addHandler_replacement ⟨none, none, some "magnet:?xt=urn:btih:aaaa", none⟩
      "magnet:?xt=urn:btih:aaaa" (by decide)).2 (by decide)).2.2.2.2.2.2⟩

/-- C10: `POST /api/rooms` bootstraps the new room with the hidden
placeholder participant, so the room exists and is non-empty (surviving the
delete-when-empty rule); the first real join removes the placeholder before
registering the joiner; and the broadcast users-list payload never contains
the placeholder entry. -/
theorem placeholder_room_lifecycle :
    (∀ rooms roomId now, JMap.get rooms roomId = none →
       ∃ room, JMap.get (postRoomsHandler rooms roomId now) roomId = some room ∧
         room.users = [("__placeholder__", ⟨"__system__"⟩)] ∧
         JMap.size room.users ≠ 0 ∧
         roomExists (postRoomsHandler rooms roomId now) roomId = true) ∧
    (∀ rooms roomId sid name now room, JMap.get rooms roomId = some room →
       room.users = [("__placeholder__", ⟨"__system__"⟩)] →
       sid ≠ "__placeholder__" → name ≠ "" →
       ∃ room', JMap.get (joinRoomHandler rooms roomId sid (some name) now).1 roomId =
           some room' ∧
         room'.users = [(sid, ⟨name⟩)] ∧
         JMap.get room'.users "__placeholder__" = none) ∧
    (∀ rooms roomId u, u ∈ (broadcastUsersList rooms roomId).1 →
       u.socketId ≠ "__placeholder__") := by
  refine ⟨?_, ?_, ?_⟩
  · intro rooms roomId now h
    rw [postRoomsHandler, joinRoom, h]
    simp only
    refine ⟨_, JMap.get_set_self _ _ _, ?_, ?_, ?_⟩
    · simp [createRoom, JMap.empty, JMap.set, jsOrGuest]
    · simp [createRoom, JMap.empty, JMap.set, JMap.size]
    · rw [roomExists, JMap.has, JMap.get_set_self]
      rfl
  · intro rooms roomId sid name now room h hu hsid hname
    have h1 : (leaveRoom rooms roomId "__placeholder__").1 = JMap.del rooms roomId := by
      rw [leaveRoom, h]
      simp [hu, JMap.get, JMap.del, JMap.size]
    rw [joinRoomHandler]
    simp only
    rw [h1, joinRoom, JMap.get_del_self]
    simp only
    refine ⟨_, JMap.get_set_self _ _ _, ?_, ?_⟩
    · simp [createRoom, JMap.empty, JMap.set, jsOrGuest, hname]
    · simp [createRoom, JMap.empty, JMap.set, jsOrGuest, hname, JMap.get, hsid]
  · intro rooms roomId u hu
    rw [broadcastUsersList] at hu
    simp only [List.mem_filter, decide_eq_true_eq] at hu
    exact hu.2

/-- Witness for C10: creating room `"r"` at 7000 ms, then its first real
join by `sock1`/`Ann` at 8000 ms. -/
theorem placeholder_room_lifecycle_witness :
    JMap.get ([] : RoomStore) "r" = none ∧
    (∃ room, JMap.get (postRoomsHandler [] "r" 7000) "r" = some room ∧
       room.users = [("__placeholder__", ⟨"__system__"⟩)] ∧
       JMap.size room.users ≠ 0 ∧
       roomExists (postRoomsHandler [] "r" 7000) "r" = true) ∧
    (∃ room', JMap.get (joinRoomHandler [("r", roomBoot)] "r" "sock1"
        (some "Ann") 8000).1 "r" = some room' ∧
       room'.users = [("sock1", ⟨"Ann"⟩)] ∧
       JMap.get room'.users "__placeholder__" = none) :=
  ⟨rfl,
   placeholder_room_lifecycle.1 [] "r" 7000 rfl,
   placeholder_room_lifecycle.2.1 [("r", roomBoot)] "r" "sock1" "Ann" 8000 roomBoot
     (by decide) rfl (by decide) (by decide)⟩

end W2G
